import Mathlib

/-!
Shallow embedding of the mcp-server-datadog client/tool layer.

Conventions used throughout:
* Vendor SDK endpoints are parameters: functions from the request
  parameters to `Except JsError ρ` (`.ok` models a resolved promise,
  `.error` a rejection).  Each embedded client method also returns the
  parameters of the vendor call it made (`none` when no call happened),
  so "performs no vendor SDK call" is expressible.
* JS timestamps are `Int` epochs.  ISO-8601 strings derived from an
  epoch (`new Date(x).toISOString()`) are represented by the epoch
  itself, since the rendering is injective and no modelled code
  inspects the rendered text.
* Results of `Date.parse` / `parseInt` on caller-supplied strings are
  modelled as oracles (`Option Int` fields of `TimeInput`).
* `JSON.stringify` in the tool layer is a `serialize` parameter; the
  handler additionally returns the structured body it serialized, which
  stands for the parsed JSON body of the reply.
-/

/-- The `{ message, statusCode }` carried by a `DatadogClientError`
(`src/utils/errors.js`); the `cause` field is never read by modelled
code and is omitted. -/
structure ErrorInfo where
  message : String
  statusCode : Option Int
deriving DecidableEq, Repr

/-- The universal `{ data, error }` result shape produced by every
client method. -/
structure Outcome (α : Type) where
  data : Option α
  error : Option ErrorInfo
deriving DecidableEq, Repr

/-- Success outcome `{ data: v, error: null }`. -/
def Outcome.okOf {α : Type} (v : α) : Outcome α := ⟨some v, none⟩

/-- Error outcome `{ data: null, error: new DatadogClientError(m) }`
(no status code argument). -/
def Outcome.errOf {α : Type} (m : String) : Outcome α := ⟨none, some ⟨m, none⟩⟩

/-- The spec's Outcome invariant: exactly one side populated. -/
def exactlyOneSide {α : Type} (o : Outcome α) : Prop :=
  (o.data.isSome ∧ o.error = none) ∨ (o.data = none ∧ o.error.isSome)

/-- An error thrown/rejected by the vendor SDK: carries an optional
`statusCode` and a `message`. -/
structure JsError where
  message : String
  statusCode : Option Int
deriving DecidableEq, Repr

/-- JS `x || d` on an optional number: `undefined`, `null` and `0` all
fall back to the default. -/
def jsOrInt (o : Option Int) (d : Int) : Int :=
  match o with
  | none => d
  | some v => if v = 0 then d else v

/-- Whether the first character list starts the second. -/
def charsStartWith : List Char → List Char → Bool
  | [], _ => true
  | _ :: _, [] => false
  | p :: ps, c :: cs => p = c && charsStartWith ps cs

/-- Whether the first character list occurs inside the second. -/
def charsContain (pat : List Char) : List Char → Bool
  | [] => charsStartWith pat []
  | c :: cs => charsStartWith pat (c :: cs) || charsContain pat cs

/-- JS `String.prototype.trim()`: strip leading and trailing
whitespace. -/
def jsTrim (s : String) : String :=
  String.mk (((s.toList.dropWhile Char.isWhitespace).reverse.dropWhile Char.isWhitespace).reverse)

/-- JS `String.prototype.toLowerCase()` (ASCII). -/
def jsToLower (s : String) : String :=
  String.mk (s.toList.map Char.toLower)

/-- JS `String.prototype.includes(pat)`. -/
def strContains (s pat : String) : Bool :=
  charsContain pat.toList s.toList

/-- JS `Array.prototype.slice(0, n)` (negative `n` counts from the
end). -/
def jsSlice {α : Type} (l : List α) (n : Int) : List α :=
  if 0 ≤ n then l.take n.toNat else l.take ((l.length : Int) + n).toNat

/-- Catch-clause error of `LogsClient` methods:
`new DatadogClientError("HTTP " + (e.statusCode || 500) + ": " + e.message, e.statusCode || 500, e)`. -/
def logsHttpError (e : JsError) : ErrorInfo :=
  let c := jsOrInt e.statusCode 500
  let m := e.message
  ⟨s!"HTTP {c}: {m}", some c⟩

/-- Catch-clause error of `MetricsClient` / `MonitorsClient` methods:
status from `e.statusCode ?? 500`, passed as the `statusCode` argument. -/
def httpError500 (e : JsError) : ErrorInfo :=
  let c := e.statusCode.getD 500
  let m := e.message
  ⟨s!"HTTP {c}: {m}", some c⟩

/-- Catch-clause error of `EventsClient` / `ApmClient` methods:
`new DatadogClientError("HTTP " + (e.statusCode || 500) + ": " + e.message)` —
note no `statusCode` argument, so the resulting `ErrorInfo` has none. -/
def httpMsgError (e : JsError) : ErrorInfo :=
  let c := jsOrInt e.statusCode 500
  let m := e.message
  ⟨s!"HTTP {c}: {m}", none⟩

/-! ## LogsClient (`src/clients/logsClient.js`) -/

/-- The `body` of `logsApi.listLogs` built by `searchLogs`: filter
`from`/`to` ISO strings (represented by their ms epochs), the query and
the page limit. -/
structure LogsBody where
  fromMs : Int
  toMs : Int
  query : String
  limit : Int
deriving DecidableEq, Repr

/-- `LogsClient.searchLogs(filter, from, to, pageSize = 10)`.  Returns
the outcome and the vendor-call body (`none` when validation failed
before the call). -/
def searchLogs {α : Type} (vendor : LogsBody → Except JsError α)
    (filter : String) (fromMs toMs : Int) (pageSize : Option Int) :
    Outcome α × Option LogsBody :=
  let ps := pageSize.getD 10
  if fromMs ≥ toMs then
    (Outcome.errOf "Start time must be before end time", none)
  else if ps < 1 ∨ ps > 100 then
    (Outcome.errOf "Page size must be between 1 and 100", none)
  else
    let body : LogsBody := ⟨fromMs, toMs, filter, ps⟩
    match vendor body with
    | .ok v => (Outcome.okOf v, some body)
    | .error e => (⟨none, some (logsHttpError e)⟩, some body)

/-- The `body` of `logsApi.listLogs` built by `getLogDetails`:
`{ filter: { query }, page: { limit: 1 } }`. -/
structure LogsIdBody where
  query : String
  limit : Int
deriving DecidableEq, Repr

/-- What `listLogs` resolves with, as read by `getLogDetails`:
`result?.data` may be absent. -/
structure LogsListResp (α : Type) where
  dataArr : Option (List α)
deriving DecidableEq, Repr

/-- Character class of `/^[a-zA-Z0-9_-]+$/`. -/
def isLogIdChar (c : Char) : Bool :=
  c.isAlphanum || c = '_' || c = '-'

/-- `/^[a-zA-Z0-9_-]+$/.test(s)`. -/
def validLogIdChars (s : String) : Bool :=
  s ≠ "" && s.toList.all isLogIdChar

/-- `LogsClient.getLogDetails(logId)`.  `logId = none` models a missing
or non-string argument.  On vendor success the outcome's `data` is
`result?.data?.[0] ?? null` — possibly absent. -/
def getLogDetails {α : Type} (vendor : LogsIdBody → Except JsError (LogsListResp α))
    (logId : Option String) : Outcome α × Option LogsIdBody :=
  match logId with
  | none => (Outcome.errOf "Log ID is required", none)
  | some s =>
    if s = "" then (Outcome.errOf "Log ID is required", none)
    else
      let idStr := jsTrim s
      if idStr = "" ∨ idStr.length > 512 ∨ ¬ validLogIdChars idStr then
        (Outcome.errOf "Invalid log ID format: use only letters, numbers, hyphens, and underscores", none)
      else
        let body : LogsIdBody := ⟨"@_id:" ++ idStr, 1⟩
        match vendor body with
        | .ok r => (⟨r.dataArr.bind List.head?, none⟩, some body)
        | .error e => (⟨none, some (logsHttpError e)⟩, some body)

/-- The `body` of `logsApi.aggregateLogs` built by `aggregateLogs`. -/
structure LogsAggBody where
  fromMs : Int
  toMs : Int
  query : String
  aggregation : String
deriving DecidableEq, Repr

/-- `LogsClient.aggregateLogs(filter, from, to, aggregationType)`. -/
def aggregateLogs {α : Type} (vendor : LogsAggBody → Except JsError α)
    (filter : String) (fromMs toMs : Int) (aggregationType : Option String) :
    Outcome α × Option LogsAggBody :=
  if fromMs ≥ toMs then
    (Outcome.errOf "Start time must be before end time", none)
  else
    let aggTy := aggregationType.getD ""
    if aggTy = "" then
      (Outcome.errOf "Aggregation type is required", none)
    else if ¬ (["avg", "max", "min", "sum", "cardinality"].contains aggTy) then
      (Outcome.errOf "Invalid aggregation type. Must be one of: avg, max, min, sum, cardinality", none)
    else
      let body : LogsAggBody := ⟨fromMs, toMs, filter, aggTy⟩
      match vendor body with
      | .ok v => (Outcome.okOf v, some body)
      | .error e => (⟨none, some (logsHttpError e)⟩, some body)

/-! ## MetricsClient (`src/clients/metricsClient.js`) -/

/-- Parameters of `metricsApi.queryMetrics`. -/
structure MetricsParams where
  fromSec : Int
  toSec : Int
  query : String
deriving DecidableEq, Repr

/-- `MetricsClient.queryMetrics(query, from, to)`. -/
def queryMetrics {α : Type} (vendor : MetricsParams → Except JsError α)
    (query : String) (fromSec toSec : Int) : Outcome α × Option MetricsParams :=
  if query = "" then
    (Outcome.errOf "Query parameter is required", none)
  else if fromSec ≥ toSec then
    (Outcome.errOf "Start time must be before end time", none)
  else
    let params : MetricsParams := ⟨fromSec, toSec, query⟩
    match vendor params with
    | .ok v => (Outcome.okOf v, some params)
    | .error e => (⟨none, some (httpError500 e)⟩, some params)

/-! ## EventsClient (`EventsClient`, `src/unnamed/part_013`) -/

/-- Parameters of `eventsApi.listEvents` built by `searchEvents`:
`{ start, end, tags }` (no page size is passed). -/
structure EventsParams where
  start : Int
  stop : Int
  tags : String
deriving DecidableEq, Repr

/-- The page size `searchEvents` computes at part_013 line 51:
`Math.min(options.pageSize || 10, 100)`.  It is never passed to the
vendor SDK. -/
def eventsPageSize (pageSize : Option Int) : Int :=
  min (jsOrInt pageSize 10) 100

/-- `EventsClient.searchEvents(query, from, to, options)`. -/
def searchEvents {α : Type} (vendor : EventsParams → Except JsError α)
    (query : String) (fromSec toSec : Int) (pageSize : Option Int) :
    Outcome α × Option EventsParams :=
  if fromSec ≥ toSec then
    (Outcome.errOf "Start time must be before end time", none)
  else
    -- `const pageSize = Math.min(options.pageSize || 10, 100);` —
    -- computed but not used in the vendor call
    let _ps := eventsPageSize pageSize
    let params : EventsParams := ⟨fromSec, toSec, query⟩
    match vendor params with
    | .ok v => (Outcome.okOf v, some params)
    | .error e => (⟨none, some (httpMsgError e)⟩, some params)

/-- The `/ AND | OR /i` test applied to each tag. -/
def hasReservedKeyword (t : String) : Bool :=
  strContains (jsToLower t) " and " || strContains (jsToLower t) " or "

/-- The tag-validation loop of `searchEventsByTags`: trims each tag,
rejects empty/overlong tags and tags embedding `" AND "`/`" OR "`
(case-insensitively), and collects the trimmed tags in order. -/
def validateTags : List String → Except ErrorInfo (List String)
  | [] => .ok []
  | tag :: rest =>
    let t := jsTrim tag
    if t = "" ∨ t.length > 256 then
      .error ⟨"Each tag must be a non-empty string of at most 256 characters", none⟩
    else if hasReservedKeyword t then
      .error ⟨"Tags must not contain ' AND ' or ' OR ' (reserved query syntax)", none⟩
    else
      match validateTags rest with
      | .error e => .error e
      | .ok safe => .ok (t :: safe)

/-- `EventsClient.searchEventsByTags(tags, from, to)`: validates the
tags, then delegates to `searchEvents` with
`safeTags.map(tag => "tags:" + tag).join(" AND ")`. -/
def searchEventsByTags {α : Type} (vendor : EventsParams → Except JsError α)
    (tags : List String) (fromSec toSec : Int) : Outcome α × Option EventsParams :=
  if tags = [] then
    (Outcome.errOf "At least one tag is required", none)
  else
    match validateTags tags with
    | .error e => (⟨none, some e⟩, none)
    | .ok safeTags =>
      let query := String.intercalate " AND " (safeTags.map (fun tag => "tags:" ++ tag))
      searchEvents vendor query fromSec toSec none

/-- `EventsClient.getMonitorEvents(monitorId, from, to)`: checks the
presence of the id (0 is valid) and the range, then delegates.
`monitorId = none` models a missing argument. -/
def getMonitorEvents {α : Type} (vendor : EventsParams → Except JsError α)
    (monitorId : Option Int) (fromSec toSec : Int) : Outcome α × Option EventsParams :=
  match monitorId with
  | none => (Outcome.errOf "Monitor ID is required", none)
  | some mid =>
    if fromSec ≥ toSec then
      (Outcome.errOf "Start time must be before end time", none)
    else
      searchEvents vendor s!"monitor_id:{mid}" fromSec toSec none

/-! ## MonitorsClient (`src/clients/monitorsClient.js`) -/

/-- Parameters of `monitorsApi.listMonitors`: each key is set only when
the corresponding filter is present. -/
structure MonitorsParams where
  name : Option String
  tags : Option String
  monitorTags : Option String
deriving DecidableEq, Repr

/-- The `params` object built by `listMonitors` from its filters:
`name` if truthy, `tags` joined with commas if an array, `monitorTags`
from `monitorType` if truthy.  The `status` filter is never forwarded. -/
def mkMonitorsParams (name : Option String) (tags : Option (List String))
    (monitorType : Option String) : MonitorsParams :=
  { name := match name with
      | some n => if n = "" then none else some n
      | none => none,
    tags := tags.map (String.intercalate ","),
    monitorTags := match monitorType with
      | some m => if m = "" then none else some m
      | none => none }

/-- `MonitorsClient.listMonitors(filters)`; the vendor resolves with the
array of monitors. -/
def listMonitors {μ : Type} (vendor : MonitorsParams → Except JsError (List μ))
    (name : Option String) (tags : Option (List String)) (monitorType : Option String) :
    Outcome (List μ) × Option MonitorsParams :=
  let params := mkMonitorsParams name tags monitorType
  match vendor params with
  | .ok v => (Outcome.okOf v, some params)
  | .error e => (⟨none, some (httpError500 e)⟩, some params)

/-- `MonitorsClient.getMonitorStatus(monitorId)`; `none` models a
missing id (0 is valid). -/
def getMonitorStatus {μ : Type} (vendor : Int → Except JsError μ)
    (monitorId : Option Int) : Outcome μ × Option Int :=
  match monitorId with
  | none => (Outcome.errOf "Monitor ID is required", none)
  | some mid =>
    match vendor mid with
    | .ok v => (Outcome.okOf v, some mid)
    | .error e => (⟨none, some (httpError500 e)⟩, some mid)

/-! ## ApmClient (`ApmClient`, `src/unnamed/part_011`) -/

/-- A span as read by `queryTraces` / `listServiceEndpoints`.  The
source reads each attribute through `span.attributes || span` and
accepts snake- or camel-case (`trace_id ?? traceId`, `resourceName ??
resource`); the embedding collapses each such chain into one optional
field. -/
structure Span where
  traceId : Option String
  duration : Option Int
  status : Option String
  service : Option String
  resource : Option String
deriving DecidableEq, Repr

/-- One entry of `byTrace` in `queryTraces` (span path), or one
synthesized entry of the metrics fallback (which only sets `trace_id`,
`span_count` and `scope`). -/
structure TraceSummary where
  trace_id : String
  span_count : Nat
  duration : Option Int
  status : Option String
  service : Option String
  resource : Option String
  scope : Option String
deriving DecidableEq, Repr

/-- The duration update of the grouping loop: a non-null incoming span
duration replaces the current one when the current is null or smaller. -/
def mergeDur (cur incoming : Option Int) : Option Int :=
  match incoming with
  | none => cur
  | some d =>
    match cur with
    | none => some d
    | some c => if d > c then some d else some c

/-- The fresh `byTrace[traceId]` entry created on first sight of a
trace id (`span_count: 0`, fields from the first span). -/
def newTrace (tid : String) (s : Span) : TraceSummary :=
  ⟨tid, 0, s.duration, s.status, s.service, s.resource, none⟩

/-- The per-span update applied after the entry exists:
`span_count += 1` and the max-duration merge. -/
def bumpTrace (ts : TraceSummary) (s : Span) : TraceSummary :=
  { ts with span_count := ts.span_count + 1,
            duration := mergeDur ts.duration s.duration }

/-- Insert one span into the ordered association list standing for the
`byTrace` object (insertion order preserved, as `Object.values` is). -/
def insertSpan : List TraceSummary → String → Span → List TraceSummary
  | [], tid, s => [bumpTrace (newTrace tid s) s]
  | ts :: rest, tid, s =>
    if ts.trace_id = tid then bumpTrace ts s :: rest
    else ts :: insertSpan rest tid s

/-- The grouping loop of `queryTraces` over the returned spans; spans
without a trace id are skipped. -/
def groupSpansAux : List TraceSummary → List Span → List TraceSummary
  | acc, [] => acc
  | acc, s :: rest =>
    match s.traceId with
    | none => groupSpansAux acc rest
    | some tid => groupSpansAux (insertSpan acc tid s) rest

/-- `Object.values(byTrace)` after grouping all spans. -/
def groupSpans (spans : List Span) : List TraceSummary :=
  groupSpansAux [] spans

/-- Parameters of `spansApi.listSpansGet` (`filterFrom`/`filterTo` ISO
strings represented by their ms epochs). -/
structure SpanParams where
  query : String
  fromMs : Int
  toMs : Int
  pageLimit : Int
deriving DecidableEq, Repr

/-- What `listSpansGet` resolves with: `response.data` may be absent
(`Array.isArray(response.data) ? response.data : []`). -/
structure SpansResponse where
  data : Option (List Span)
deriving DecidableEq, Repr

/-- One metric series of a `queryMetrics` response, as read by the APM
fallback path. -/
structure MSeries where
  scope : Option String
  tagSet : Option (List String)
  pointlist : Option (List Int)
deriving DecidableEq, Repr

/-- What `metricsApi.queryMetrics` resolves with (`result.series`
may be absent). -/
structure MetricsResult where
  series : Option (List MSeries)
deriving DecidableEq, Repr

/-- The aggregated `{ traces, tracesCount, message }` data of
`queryTraces`. -/
structure TraceData where
  traces : List TraceSummary
  tracesCount : Nat
  message : String
deriving DecidableEq, Repr

/-- The `limit` of `queryTraces`: `Math.min(options.pageSize || 100, 100)`. -/
def apmLimit (pageSize : Option Int) : Int :=
  min (jsOrInt pageSize 100) 100

/-- The span query of `queryTraces`: `service:name` when a truthy
service name is supplied, plus the trimmed filter when non-empty,
joined with spaces; `none` stands for `undefined` (no parts). -/
def apmSpanQuery (serviceName : Option String) (filter : String) : Option String :=
  let queryParts :=
    (match serviceName with
     | some s => if s = "" then [] else ["service:" ++ s]
     | none => []) ++
    (if jsTrim filter = "" then [] else [jsTrim filter])
  if queryParts = [] then none else some (String.intercalate " " queryParts)

/-- JS `s.split(sep)[0]` for a single-character separator: the text
before the first occurrence (the whole string when absent). -/
def jsSplitHead (s : String) (sep : Char) : String :=
  String.mk (s.toList.takeWhile (fun c => c ≠ sep))

/-- The fallback metric query:
`filter ? "trace." + filter.split(":")[0] + "{" + filter + "}" : "trace.*"`. -/
def fallbackQuery (filter : String) : String :=
  if filter = "" then "trace.*"
  else "trace." ++ jsSplitHead filter ':' ++ "\x7b" ++ filter ++ "\x7d"

/-- One synthesized trace of the metrics fallback:
`trace_id` from the series scope (or a `series-…` placeholder),
`span_count` from the point count. -/
def fallbackTrace (s : MSeries) : TraceSummary :=
  { trace_id :=
      match s.scope with
      | some sc => sc
      | none =>
        "series-" ++ (match s.tagSet with
          | some l => String.intercalate "-" l
          | none => "unknown"),
    span_count := (s.pointlist.getD []).length,
    duration := none, status := none, service := none, resource := none,
    scope := s.scope }

/-- `ApmClient._queryTracesFallbackMetrics(filter, from, to, limit)`.
Not wrapped in its own try/catch: a rejection of the metrics call
rejects this async method's promise (`.error`). -/
def tracesFallbackMetrics (metricsVendor : MetricsParams → Except JsError MetricsResult)
    (filter : String) (fromMs toMs : Int) (limit : Int) :
    Except JsError TraceData × Option MetricsParams :=
  let params : MetricsParams :=
    ⟨Int.fdiv fromMs 1000, Int.fdiv toMs 1000, fallbackQuery filter⟩
  match metricsVendor params with
  | .error e => (.error e, some params)
  | .ok r =>
    let series := r.series.getD []
    let traces := (jsSlice series limit).map fallbackTrace
    (.ok ⟨traces, traces.length, "Trace metrics available"⟩, some params)

/-- `ApmClient.queryTraces(filter, from, to, options)`.  Returns the
method's result — `.ok` an outcome when its promise resolves, `.error`
when it rejects — plus the span-listing call (if any) and the fallback
metrics call (if any).  Both fallback sites (part_011 lines 107 and
111) `return this._queryTracesFallbackMetrics(...)` from inside the
try block WITHOUT awaiting, so the returned promise is adopted after
the try/catch has exited: a fallback rejection escapes the outer catch
and the method rejects with the raw vendor error.  The outer catch is
unreachable on the modelled paths. -/
def queryTraces (spansVendor : SpanParams → Except JsError SpansResponse)
    (metricsVendor : MetricsParams → Except JsError MetricsResult)
    (filter : String) (fromMs toMs : Int)
    (serviceName : Option String) (pageSize : Option Int) :
    Except JsError (Outcome TraceData) × Option SpanParams × Option MetricsParams :=
  if fromMs ≥ toMs then
    (.ok (Outcome.errOf "Start time must be before end time"), none, none)
  else
    let limit := apmLimit pageSize
    match apmSpanQuery serviceName filter with
    | some q =>
      let params : SpanParams := ⟨q, fromMs, toMs, limit⟩
      match spansVendor params with
      | .ok resp =>
        let spans := resp.data.getD []
        let traces := groupSpans spans
        (.ok (Outcome.okOf ⟨traces, traces.length,
          if traces.length > 0 then "Trace list from Spans API" else "No traces in range"⟩),
         some params, none)
      | .error _ =>
        match tracesFallbackMetrics metricsVendor filter fromMs toMs limit with
        | (.ok d, mp) => (.ok (Outcome.okOf d), some params, mp)
        | (.error e, mp) => (.error e, some params, mp)
    | none =>
      match tracesFallbackMetrics metricsVendor filter fromMs toMs limit with
      | (.ok d, mp) => (.ok (Outcome.okOf d), none, mp)
      | (.error e, mp) => (.error e, none, mp)

/-- The `{ service, dependencies, message }` data returned by
`ApmClient.getServiceDependencies`. -/
structure ApmDepsData where
  service : String
  dependencies : List MSeries
  message : String
deriving DecidableEq, Repr

/-- `ApmClient.getServiceDependencies(serviceName, from, to)`.  Note:
no time-range validation — the metrics query is made for any range. -/
def apmGetServiceDependencies (metricsVendor : MetricsParams → Except JsError MetricsResult)
    (serviceName : String) (fromMs toMs : Int) :
    Outcome ApmDepsData × Option MetricsParams :=
  if serviceName = "" then
    (Outcome.errOf "Service name is required", none)
  else
    let params : MetricsParams :=
      ⟨Int.fdiv fromMs 1000, Int.fdiv toMs 1000,
       "trace.*\x7bservice:" ++ serviceName ++ "\x7d"⟩
    match metricsVendor params with
    | .ok r =>
      (Outcome.okOf ⟨serviceName, r.series.getD [],
        "Service metrics (dependencies require service map API)"⟩, some params)
    | .error e => (⟨none, some (httpMsgError e)⟩, some params)

/-- A `{ service, resource }` endpoint of `listServiceEndpoints`. -/
structure Endpoint where
  service : String
  resource : String
deriving DecidableEq, Repr

/-- The dedup loop of `listServiceEndpoints`: `seen` holds the
`service + "\0" + resource` keys already emitted. -/
def collectEndpoints (svcDefault : String) : List Span → List String → List Endpoint
  | [], _ => []
  | s :: rest, seen =>
    match s.resource with
    | none => collectEndpoints svcDefault rest seen
    | some res =>
      let sv := (s.service).getD svcDefault
      let key := sv ++ String.singleton (Char.ofNat 0) ++ res
      if seen.contains key then collectEndpoints svcDefault rest seen
      else ⟨sv, res⟩ :: collectEndpoints svcDefault rest (key :: seen)

/-- `ApmClient.listServiceEndpoints(serviceName, from, to, options)`.
An absent or empty service name and an inverted range share one error
message. -/
def listServiceEndpoints (spansVendor : SpanParams → Except JsError SpansResponse)
    (serviceName : Option String) (fromMs toMs : Int)
    (env : Option String) (pageLimit : Option Int) :
    Outcome (List Endpoint) × Option SpanParams :=
  match serviceName with
  | none => (Outcome.errOf "Service name and valid time range required", none)
  | some svc =>
    if svc = "" ∨ fromMs ≥ toMs then
      (Outcome.errOf "Service name and valid time range required", none)
    else
      let queryParts := ["service:" ++ svc] ++
        (match env with
         | some e => if e = "" then [] else ["env:" ++ e]
         | none => [])
      let limit := min (pageLimit.getD 500) 1000
      let params : SpanParams :=
        ⟨String.intercalate " " queryParts, fromMs, toMs, limit⟩
      match spansVendor params with
      | .ok resp =>
        (Outcome.okOf (collectEndpoints svc (resp.data.getD []) []), some params)
      | .error e => (⟨none, some (httpMsgError e)⟩, some params)

/-! ## Timestamp parsing (tool layer) -/

/-- A tool-level `from`/`to` argument.  A string input carries the two
parse oracles the source consults: `new Date(s).getTime()` (ms epoch,
`none` when `NaN`) and `parseInt(s, 10)` (`none` when `NaN`).  `other`
stands for any value that is neither a number nor a string. -/
inductive TimeInput where
  | num (n : Int)
  | str (isoMs : Option Int) (intVal : Option Int)
  | other
deriving DecidableEq, Repr

/-- `parseTimestamp` of `src/tools/metricsTools.js` (target unit:
seconds; numbers are passed through unchanged, with no magnitude
heuristic). -/
def parseTimestamp : TimeInput → Except String Int
  | .num n => .ok n
  | .str isoMs intVal =>
    match isoMs with
    | some ms => .ok (Int.fdiv ms 1000)
    | none =>
      match intVal with
      | some v => .ok v
      | none => .error "Invalid timestamp format"
  | .other => .error "Invalid timestamp format"

/-- `parseApmTimestamp(time, asSeconds)` of `src/tools/apmTools.js`:
numbers below `10_000_000_000` are seconds, at/above are milliseconds;
strings try ISO-8601 first, then integer parse with the same
heuristic. -/
def parseApmTimestamp (time : TimeInput) (asSeconds : Bool) : Except String Int :=
  match time with
  | .num n =>
    if n < 10000000000 then
      .ok (if asSeconds then n else n * 1000)
    else
      .ok (if asSeconds then Int.fdiv n 1000 else n)
  | .str isoMs intVal =>
    match isoMs with
    | some ms => .ok (if asSeconds then Int.fdiv ms 1000 else ms)
    | none =>
      match intVal with
      | some v =>
        if asSeconds then
          .ok (if v < 10000000000 then v else Int.fdiv v 1000)
        else
          .ok (if v < 10000000000 then v * 1000 else v)
      | none => .error "Invalid timestamp format"
  | .other => .error "Invalid timestamp format"

/-- `parseLogsTimestamp(time, asSeconds)` of the logs tools file
(`src/unnamed/part_015`) — textually identical to `parseApmTimestamp`. -/
def parseLogsTimestamp (time : TimeInput) (asSeconds : Bool) : Except String Int :=
  match time with
  | .num n =>
    if n < 10000000000 then
      .ok (if asSeconds then n else n * 1000)
    else
      .ok (if asSeconds then Int.fdiv n 1000 else n)
  | .str isoMs intVal =>
    match isoMs with
    | some ms => .ok (if asSeconds then Int.fdiv ms 1000 else ms)
    | none =>
      match intVal with
      | some v =>
        if asSeconds then
          .ok (if v < 10000000000 then v else Int.fdiv v 1000)
        else
          .ok (if v < 10000000000 then v * 1000 else v)
      | none => .error "Invalid timestamp format"
  | .other => .error "Invalid timestamp format"

/-! ## Tool replies -/

/-- One `{ type: "text", text }` content item. -/
structure TextContent where
  ctype : String
  text : String
deriving DecidableEq, Repr

/-- The `{ isError, content }` reply every tool handler returns. -/
structure ToolReply where
  isError : Bool
  content : List TextContent
deriving DecidableEq, Repr

/-- An error reply with a single text item. -/
def errReply (m : String) : ToolReply := ⟨true, [⟨"text", m⟩]⟩

/-- A success reply with a single text item. -/
def okReply (m : String) : ToolReply := ⟨false, [⟨"text", m⟩]⟩

/-! ## query_metrics tool (`src/tools/metricsTools.js`) -/

/-- The raw arguments of `query_metrics`: `metricName`/`filter` are
`none` when absent or not a string (for `filter`, also when empty and
falsy — `some ""` and `none` behave identically, as in the source). -/
structure QMInput where
  metricName : Option String
  fromTime : TimeInput
  toTime : TimeInput
  filter : Option String
deriving DecidableEq, Repr

/-- One series of a metrics response as read by `handleQueryMetrics`
(`s.points` may be absent). -/
structure QMSeries where
  points : Option (List Int)
deriving DecidableEq, Repr

/-- A metrics response as read by `handleQueryMetrics`
(`data.series` may be absent). -/
structure QMResp where
  series : Option (List QMSeries)
deriving DecidableEq, Repr

/-- `/[{}]/.test(s)`. -/
def hasBrace (s : String) : Bool :=
  s.toList.any (fun c => c = Char.ofNat 123 || c = Char.ofNat 125)

/-- The `limitedData` computation: at most 50 series, at most 100
points per series. -/
def limitSeries (r : QMResp) : QMResp :=
  ⟨r.series.map (fun l => (l.take 50).map (fun s => ⟨s.points.map (fun p => p.take 100)⟩))⟩

/-- The object `handleQueryMetrics` passes to `JSON.stringify` on
success (`timeRange` ISO strings represented by their second epochs). -/
structure QueryMetricsBody where
  metric : String
  filter : String
  fromSec : Int
  toSec : Int
  seriesCount : Nat
  data : QMResp
deriving DecidableEq, Repr

/-- `handleQueryMetrics(input, client)`.  Returns the reply and the
`client.queryMetrics` call arguments (`none` when the client was not
invoked).  The final `⟨none, none⟩` outcome branch is unreachable
(`queryMetrics` never produces it) and models the TypeError the source
would throw — and catch — when reading `data.series` off `undefined`. -/
def handleQueryMetrics (serialize : QueryMetricsBody → String)
    (vendor : MetricsParams → Except JsError QMResp) (input : QMInput) :
    ToolReply × Option (String × Int × Int) :=
  match parseTimestamp input.fromTime with
  | .error m => (errReply s!"Error: {m}", none)
  | .ok f =>
    match parseTimestamp input.toTime with
    | .error m => (errReply s!"Error: {m}", none)
    | .ok t =>
      if f ≥ t then
        (errReply "Error: Start time (from) must be before end time (to)", none)
      else
        let metricName := (input.metricName.map jsTrim).getD ""
        if metricName = "" then
          (errReply "Error: metricName must be a non-empty string", none)
        else
          let filterVal := input.filter.getD ""
          if filterVal ≠ "" ∧ hasBrace filterVal then
            (errReply "Error: filter must not contain \x7b or \x7d (invalid for metric query syntax)", none)
          else
            let query :=
              if filterVal ≠ "" then metricName ++ "\x7b" ++ filterVal ++ "\x7d"
              else metricName
            match (queryMetrics vendor query f t).1 with
            | ⟨_, some e⟩ =>
              let m := e.message
              (errReply s!"Error querying metrics: {m}", some (query, f, t))
            | ⟨some d, none⟩ =>
              (okReply (serialize
                ⟨metricName, if filterVal = "" then "none" else filterVal,
                 f, t, (d.series.getD []).length, limitSeries d⟩),
               some (query, f, t))
            | ⟨none, none⟩ =>
              (errReply "Error: Cannot read properties of undefined (reading 'series')",
               some (query, f, t))

/-! ## list_monitors tool (`src/tools/monitorsTools.js`) -/

/-- The raw arguments of `list_monitors`. -/
structure LMInput where
  status : Option String
  tags : Option (List String)
deriving DecidableEq, Repr

/-- The object `handleListMonitors` passes to `JSON.stringify` on
success. -/
structure ListMonitorsBody (μ : Type) where
  filtersStatus : String
  filtersTags : List String
  monitorsCount : Nat
  monitors : List μ
deriving DecidableEq, Repr

/-- The tags filter `handleListMonitors` forwards: only when `tags` is
a non-empty array. -/
def lmTagsFilter (tags : Option (List String)) : Option (List String) :=
  match tags with
  | some l => if l = [] then none else some l
  | none => none

/-- `handleListMonitors(input, client)`.  Returns the reply and, on
success, the structured body serialized into the reply text (which is
what the reply's parsed JSON body reports). -/
def handleListMonitors {μ : Type} (serialize : ListMonitorsBody μ → String)
    (vendor : MonitorsParams → Except JsError (List μ)) (input : LMInput) :
    ToolReply × Option (ListMonitorsBody μ) :=
  let statusVal := input.status.getD ""
  if statusVal ≠ "" ∧ ¬ (["triggered", "OK", "degraded"].contains statusVal) then
    (errReply "Error: status must be one of: triggered, OK, degraded", none)
  else
    match (listMonitors vendor none (lmTagsFilter input.tags) none).1 with
    | ⟨_, some e⟩ =>
      let m := e.message
      (errReply s!"Error listing monitors: {m}", none)
    | ⟨some data, none⟩ =>
      -- `monitorsCount: data.length || 0` equals `data.length` for arrays
      let body : ListMonitorsBody μ :=
        ⟨if statusVal = "" then "any" else statusVal,
         input.tags.getD [], data.length, data⟩
      (okReply (serialize body), some body)
    | ⟨none, none⟩ =>
      -- unreachable: `listMonitors` never yields an empty outcome
      (errReply "Error: Cannot read properties of undefined (reading 'length')", none)

/-! ## formatToolError (`#utils/toolErrors.js`) -/

/-- The range-ordering language test of `getActionableHint`:
`message.includes("must be before") || message.includes("Start time") ||
(message.includes("from") && message.includes("to"))`. -/
def mentionsRangeOrder (m : String) : Bool :=
  strContains m "must be before" || strContains m "Start time" ||
    (strContains m "from" && strContains m "to")

/-- The invalid-format language test of `getActionableHint`:
`message.includes("Invalid") && message.includes("format")`. -/
def mentionsInvalidFormat (m : String) : Bool :=
  strContains m "Invalid" && strContains m "format"

/-- `getActionableHint(message, statusCode)`: the fixed-precedence hint
chain. -/
def getActionableHint (message : String) (statusCode : Option Int) : String :=
  if statusCode = some 401 ∨ statusCode = some 403 then
    "Check DATADOG_API_KEY and DATADOG_APP_KEY and that the app key has the required scopes."
  else if statusCode = some 404 then
    "No resource found. Check the ID or query and try again."
  else if statusCode = some 429 then
    "Datadog rate limit hit. Retry after a short delay or reduce request frequency."
  else if message ≠ "" ∧ mentionsRangeOrder message then
    "Ensure 'from' is before 'to'."
  else if message ≠ "" ∧ mentionsInvalidFormat message then
    "Use Unix timestamp (seconds or ms) or ISO 8601 (e.g. 2021-01-01T00:00:00Z)."
  else ""

/-- `formatToolError(message, statusCode)`: appends the hint (if any)
after a space. -/
def formatToolError (message : String) (statusCode : Option Int) : String :=
  let hint := getActionableHint message statusCode
  if hint ≠ "" then message ++ " " ++ hint else message

/-! ## Claim theorems -/

/-- C4: the timestamp normalizer (`parseApmTimestamp` and the identical
`parseLogsTimestamp`) treats numeric inputs below `10_000_000_000` as
seconds and values at or above as milliseconds, converted to the
requested unit; string inputs try ISO-8601 first and, on failure, the
integer parse with the same magnitude heuristic; everything else (and
an unparseable string) fails with the invalid-timestamp error. -/
theorem C4_timestamp_normalizer (u : Bool) (n v ms : Int) (intVal : Option Int) :
    (n < 10000000000 →
      parseApmTimestamp (.num n) u = .ok (if u then n else n * 1000) ∧
      parseLogsTimestamp (.num n) u = .ok (if u then n else n * 1000)) ∧
    (10000000000 ≤ n →
      parseApmTimestamp (.num n) u = .ok (if u then Int.fdiv n 1000 else n) ∧
      parseLogsTimestamp (.num n) u = .ok (if u then Int.fdiv n 1000 else n)) ∧
    (parseApmTimestamp (.str (some ms) intVal) u = .ok (if u then Int.fdiv ms 1000 else ms) ∧
      parseLogsTimestamp (.str (some ms) intVal) u = .ok (if u then Int.fdiv ms 1000 else ms)) ∧
    (v < 10000000000 →
      parseApmTimestamp (.str none (some v)) u = .ok (if u then v else v * 1000) ∧
      parseLogsTimestamp (.str none (some v)) u = .ok (if u then v else v * 1000)) ∧
    (10000000000 ≤ v →
      parseApmTimestamp (.str none (some v)) u = .ok (if u then Int.fdiv v 1000 else v) ∧
      parseLogsTimestamp (.str none (some v)) u = .ok (if u then Int.fdiv v 1000 else v)) ∧
    (parseApmTimestamp (.str none none) u = .error "Invalid timestamp format" ∧
      parseLogsTimestamp (.str none none) u = .error "Invalid timestamp format" ∧
      parseApmTimestamp .other u = .error "Invalid timestamp format" ∧
      parseLogsTimestamp .other u = .error "Invalid timestamp format") := by
  refine ⟨fun h => ?_, fun h => ?_, ?_, fun h => ?_, fun h => ?_, ?_⟩
  · exact ⟨by simp [parseApmTimestamp, h], by simp [parseLogsTimestamp, h]⟩
  · have h' : ¬ (n < 10000000000) := not_lt.mpr h
    exact ⟨by simp [parseApmTimestamp, h'], by simp [parseLogsTimestamp, h']⟩
  · exact ⟨by simp [parseApmTimestamp], by simp [parseLogsTimestamp]⟩
  · exact ⟨by cases u <;> simp [parseApmTimestamp, h],
      by cases u <;> simp [parseLogsTimestamp, h]⟩
  · have h' : ¬ (v < 10000000000) := not_lt.mpr h
    exact ⟨by cases u <;> simp [parseApmTimestamp, h'],
      by cases u <;> simp [parseLogsTimestamp, h']⟩
  · exact ⟨by simp [parseApmTimestamp], by simp [parseLogsTimestamp],
      by simp [parseApmTimestamp], by simp [parseLogsTimestamp]⟩

/-- C4 witness: the theorem applied at concrete inputs. -/
theorem C4_timestamp_normalizer_witness :
    parseApmTimestamp (.num 5) false = .ok 5000 ∧
    parseLogsTimestamp (.num 20000000000) true = .ok 20000000 :=
  ⟨((C4_timestamp_normalizer false 5 0 0 none).1 (by norm_num)).1,
   ((C4_timestamp_normalizer true 20000000000 0 0 none).2.1 (by norm_num)).2⟩

/-- C8: `formatToolError` appends at most one hint, chosen by first
match in the fixed order 401/403 → 404 → 429 → range-ordering language
→ invalid-format language, and otherwise returns the message
unchanged. -/
theorem C8_format_tool_error (m : String) (s : Option Int) :
    ((s = some 401 ∨ s = some 403) →
      formatToolError m s =
        m ++ " " ++ "Check DATADOG_API_KEY and DATADOG_APP_KEY and that the app key has the required scopes.") ∧
    (s ≠ some 401 → s ≠ some 403 → s = some 404 →
      formatToolError m s = m ++ " " ++ "No resource found. Check the ID or query and try again.") ∧
    (s ≠ some 401 → s ≠ some 403 → s ≠ some 404 → s = some 429 →
      formatToolError m s =
        m ++ " " ++ "Datadog rate limit hit. Retry after a short delay or reduce request frequency.") ∧
    (s ≠ some 401 → s ≠ some 403 → s ≠ some 404 → s ≠ some 429 →
      m ≠ "" → mentionsRangeOrder m = true →
      formatToolError m s = m ++ " " ++ "Ensure 'from' is before 'to'.") ∧
    (s ≠ some 401 → s ≠ some 403 → s ≠ some 404 → s ≠ some 429 →
      m ≠ "" → mentionsRangeOrder m = false → mentionsInvalidFormat m = true →
      formatToolError m s =
        m ++ " " ++ "Use Unix timestamp (seconds or ms) or ISO 8601 (e.g. 2021-01-01T00:00:00Z).") ∧
    (s ≠ some 401 → s ≠ some 403 → s ≠ some 404 → s ≠ some 429 →
      mentionsRangeOrder m = false → mentionsInvalidFormat m = false →
      formatToolError m s = m) := by
  refine ⟨fun h1 => ?_, fun h1 h2 h3 => ?_, fun h1 h2 h3 h4 => ?_,
    fun h1 h2 h3 h4 h5 h6 => ?_, fun h1 h2 h3 h4 h5 h6 h7 => ?_,
    fun h1 h2 h3 h4 h5 h6 => ?_⟩ <;>
    simp [formatToolError, getActionableHint, *]

/-- C8 witness: the theorem applied at concrete inputs, one per rule. -/
theorem C8_format_tool_error_witness :
    formatToolError "oops" (some 403) =
      "oops Check DATADOG_API_KEY and DATADOG_APP_KEY and that the app key has the required scopes." ∧
    formatToolError "oops" (some 404) =
      "oops No resource found. Check the ID or query and try again." ∧
    formatToolError "oops" (some 429) =
      "oops Datadog rate limit hit. Retry after a short delay or reduce request frequency." ∧
    formatToolError "Start time must be before end time" none =
      "Start time must be before end time Ensure 'from' is before 'to'." ∧
    formatToolError "Invalid timestamp format" none =
      "Invalid timestamp format Use Unix timestamp (seconds or ms) or ISO 8601 (e.g. 2021-01-01T00:00:00Z)." ∧
    formatToolError "oops" none = "oops" :=
  ⟨(C8_format_tool_error "oops" (some 403)).1 (Or.inr rfl),
   (C8_format_tool_error "oops" (some 404)).2.1 (by decide) (by decide) rfl,
   (C8_format_tool_error "oops" (some 429)).2.2.1 (by decide) (by decide) (by decide) rfl,
   (C8_format_tool_error "Start time must be before end time" none).2.2.2.1
     (by decide) (by decide) (by decide) (by decide) (by decide) (by decide),
   (C8_format_tool_error "Invalid timestamp format" none).2.2.2.2.1
     (by decide) (by decide) (by decide) (by decide) (by decide) (by decide) (by decide),
   (C8_format_tool_error "oops" none).2.2.2.2.2
     (by decide) (by decide) (by decide) (by decide) (by decide) (by decide)⟩

/-- Exactly-one-side is decidable, so witnesses can be computed. -/
instance {α : Type} [DecidableEq α] (o : Outcome α) : Decidable (exactlyOneSide o) := by
  unfold exactlyOneSide
  exact inferInstance

/-- A success outcome has exactly one side. -/
lemma exactlyOneSide_okOf {α : Type} (v : α) : exactlyOneSide (Outcome.okOf v) := by
  simp [exactlyOneSide, Outcome.okOf]

/-- A validation-error outcome has exactly one side. -/
lemma exactlyOneSide_errOf {α : Type} (m : String) :
    exactlyOneSide (Outcome.errOf (α := α) m) := by
  simp [exactlyOneSide, Outcome.errOf]

/-- An SDK-error outcome has exactly one side. -/
lemma exactlyOneSide_errInfo {α : Type} (e : ErrorInfo) :
    exactlyOneSide (⟨none, some e⟩ : Outcome α) := by
  simp [exactlyOneSide]

/-- C1 counterexample: `getLogDetails`, on a vendor search that
succeeds with an empty result list, returns `{ data: null, error:
null }` — both sides empty, violating the claimed invariant. -/
theorem C1_counterexample :
    ¬ exactlyOneSide
      ((getLogDetails (fun _ => Except.ok (⟨some []⟩ : LogsListResp Unit)) (some "abc")).1) := by
  decide

/-- C1 (amended): every client method that returns an outcome returns
one with exactly one side populated, with one exception:
`LogsClient.getLogDetails` never populates both sides, but when the
vendor search succeeds its outcome is `{ data: firstLog, error: null }`
with `firstLog = result?.data?.[0] ?? null` — so both sides are empty
when no log matched.  `ApmClient.queryTraces` can also reject outright
(producing no outcome at all) when its un-awaited metrics fallback
rejects; every outcome it does resolve with has exactly one side. -/
theorem C1_outcome_invariant (α : Type) :
    (∀ (vendor : LogsBody → Except JsError α) filter f t ps,
      exactlyOneSide (searchLogs vendor filter f t ps).1) ∧
    (∀ (vendor : LogsAggBody → Except JsError α) filter f t aggTy,
      exactlyOneSide (aggregateLogs vendor filter f t aggTy).1) ∧
    (∀ (vendor : MetricsParams → Except JsError α) q f t,
      exactlyOneSide (queryMetrics vendor q f t).1) ∧
    (∀ (vendor : EventsParams → Except JsError α) q f t ps,
      exactlyOneSide (searchEvents vendor q f t ps).1) ∧
    (∀ (vendor : EventsParams → Except JsError α) tags f t,
      exactlyOneSide (searchEventsByTags vendor tags f t).1) ∧
    (∀ (vendor : EventsParams → Except JsError α) mid f t,
      exactlyOneSide (getMonitorEvents vendor mid f t).1) ∧
    (∀ (vendor : MonitorsParams → Except JsError (List α)) name tags mt,
      exactlyOneSide (listMonitors vendor name tags mt).1) ∧
    (∀ (vendor : Int → Except JsError α) mid,
      exactlyOneSide (getMonitorStatus vendor mid).1) ∧
    (∀ sv mv filter f t svc ps o,
      (queryTraces sv mv filter f t svc ps).1 = .ok o → exactlyOneSide o) ∧
    (∀ mv svc f t,
      exactlyOneSide (apmGetServiceDependencies mv svc f t).1) ∧
    (∀ sv svc f t env pl,
      exactlyOneSide (listServiceEndpoints sv svc f t env pl).1) ∧
    (∀ (vendor : LogsIdBody → Except JsError (LogsListResp α)) logId,
      ((getLogDetails vendor logId).1.data.isSome →
        (getLogDetails vendor logId).1.error = none)) ∧
    (∀ (vendor : LogsIdBody → Except JsError (LogsListResp α)) (logId : String) resp,
      logId ≠ "" →
      ¬ (jsTrim logId = "" ∨ (jsTrim logId).length > 512 ∨ ¬ validLogIdChars (jsTrim logId)) →
      vendor ⟨"@_id:" ++ jsTrim logId, 1⟩ = .ok resp →
      (getLogDetails vendor (some logId)).1 = ⟨resp.dataArr.bind List.head?, none⟩) := by
  refine ⟨?_, ?_, ?_, ?_, ?_, ?_, ?_, ?_, ?_, ?_, ?_, ?_, ?_⟩
  · intro vendor filter f t ps
    unfold searchLogs
    repeat' first
      | split
      | dsimp only
    all_goals first
      | exact exactlyOneSide_errOf _
      | exact exactlyOneSide_okOf _
      | exact exactlyOneSide_errInfo _
  · intro vendor filter f t aggTy
    unfold aggregateLogs
    repeat' first
      | split
      | dsimp only
    all_goals first
      | exact exactlyOneSide_errOf _
      | exact exactlyOneSide_okOf _
      | exact exactlyOneSide_errInfo _
  · intro vendor q f t
    unfold queryMetrics
    repeat' first
      | split
      | dsimp only
    all_goals first
      | exact exactlyOneSide_errOf _
      | exact exactlyOneSide_okOf _
      | exact exactlyOneSide_errInfo _
  · intro vendor q f t ps
    unfold searchEvents
    repeat' first
      | split
      | dsimp only
    all_goals first
      | exact exactlyOneSide_errOf _
      | exact exactlyOneSide_okOf _
      | exact exactlyOneSide_errInfo _
  · intro vendor tags f t
    unfold searchEventsByTags searchEvents
    repeat' first
      | split
      | dsimp only
    all_goals first
      | exact exactlyOneSide_errOf _
      | exact exactlyOneSide_okOf _
      | exact exactlyOneSide_errInfo _
  · intro vendor mid f t
    unfold getMonitorEvents searchEvents
    repeat' first
      | split
      | dsimp only
    all_goals first
      | exact exactlyOneSide_errOf _
      | exact exactlyOneSide_okOf _
      | exact exactlyOneSide_errInfo _
  · intro vendor name tags mt
    unfold listMonitors
    repeat' first
      | split
      | dsimp only
    all_goals first
      | exact exactlyOneSide_errOf _
      | exact exactlyOneSide_okOf _
      | exact exactlyOneSide_errInfo _
  · intro vendor mid
    unfold getMonitorStatus
    repeat' first
      | split
      | dsimp only
    all_goals first
      | exact exactlyOneSide_errOf _
      | exact exactlyOneSide_okOf _
      | exact exactlyOneSide_errInfo _
  · intro sv mv filter f t svc ps o h
    unfold queryTraces tracesFallbackMetrics at h
    repeat' first
      | split at h
      | dsimp only at h
    all_goals first
      | (injection h with h
         subst h
         first
           | exact exactlyOneSide_errOf _
           | exact exactlyOneSide_okOf _)
      | cases h
  · intro mv svc f t
    unfold apmGetServiceDependencies
    repeat' first
      | split
      | dsimp only
    all_goals first
      | exact exactlyOneSide_errOf _
      | exact exactlyOneSide_okOf _
      | exact exactlyOneSide_errInfo _
  · intro sv svc f t env pl
    unfold listServiceEndpoints
    repeat' first
      | split
      | dsimp only
    all_goals first
      | exact exactlyOneSide_errOf _
      | exact exactlyOneSide_okOf _
      | exact exactlyOneSide_errInfo _
  · intro vendor logId
    unfold getLogDetails
    rcases logId with _ | s
    · simp [Outcome.errOf]
    · dsimp only
      split
      · simp [Outcome.errOf]
      · split
        · simp [Outcome.errOf]
        · split <;> simp
  · intro vendor logId resp hne hvalid hv
    simp only [getLogDetails]
    rw [if_neg hne]
    try dsimp only
    rw [if_neg hvalid, hv]

/-- C1 witness: the amended theorem applied at concrete inputs. -/
theorem C1_outcome_invariant_witness :
    exactlyOneSide ((searchLogs (fun _ => Except.ok ()) "f" 1 2 none).1) ∧
    (getLogDetails (fun _ => Except.ok (⟨some []⟩ : LogsListResp Unit)) (some "abc")).1 =
      ⟨(some ([] : List Unit)).bind List.head?, none⟩ :=
  ⟨(C1_outcome_invariant Unit).1 _ "f" 1 2 none,
   (C1_outcome_invariant Unit).2.2.2.2.2.2.2.2.2.2.2.2
     (fun _ => Except.ok ⟨some []⟩) "abc" ⟨some []⟩ (by decide) (by decide) rfl⟩

/-- C2: the claim is right and the code is wrong.
`ApmClient.queryTraces` rejects when its metrics fallback rejects:
both fallback sites (part_011 lines 107 and 111) return the un-awaited
fallback promise from inside the try block, so the rejection is
adopted after the try/catch has exited and escapes the outer catch.
Evaluated at the failing input — filter "env:prod", a service name,
and both the spans and metrics vendors rejecting with a 401 — the
method makes the fallback metrics call and then rejects with the raw
vendor error instead of resolving to an error outcome, contradicting
the propagation policy and the repository's own test
("should handle API errors when spans and fallback both fail",
part_005), which awaits a resolved `{ data, error }` outcome with
`error.statusCode === 401`. -/
theorem C2_query_traces_rejects :
    (queryTraces (fun _ => Except.error ⟨"Unauthorized", some 401⟩)
        (fun _ => Except.error ⟨"Unauthorized", some 401⟩)
        "env:prod" 1 2 (some "api") none).1 =
      Except.error ⟨"Unauthorized", some 401⟩ ∧
    (queryTraces (fun _ => Except.error ⟨"Unauthorized", some 401⟩)
        (fun _ => Except.error ⟨"Unauthorized", some 401⟩)
        "env:prod" 1 2 (some "api") none).2.2 =
      some ⟨0, 0, "trace.env\x7benv:prod\x7d"⟩ := by
  constructor <;> rfl

/-- C3 counterexample: `ApmClient.getServiceDependencies` takes a time
range but performs no range validation — with `from = to = 5` (an
invalid range under the claim) it still makes the metrics vendor call
and returns a success outcome instead of the claimed
"Start time must be before end time" error. -/
theorem C3_counterexample :
    (apmGetServiceDependencies (fun _ => Except.ok (⟨some []⟩ : MetricsResult)) "svc" 5 5).2 =
      some ⟨0, 0, "trace.*\x7bservice:svc\x7d"⟩ ∧
    (apmGetServiceDependencies (fun _ => Except.ok (⟨some []⟩ : MetricsResult)) "svc" 5 5).1.error =
      none := by
  constructor <;> rfl

/-- C3 (amended): for `from ≥ to`, the range-validating client methods
(`searchLogs`, `aggregateLogs`, `queryMetrics` with a non-empty query,
`searchEvents`, `getMonitorEvents`, `queryTraces`) return the error
outcome "Start time must be before end time" with no vendor call;
`listServiceEndpoints` rejects the range with the combined message
"Service name and valid time range required"; but
`ApmClient.getServiceDependencies` performs no range check and makes
its vendor call anyway. -/
theorem C3_range_validation (f t : Int) (hge : f ≥ t) (α : Type) :
    (∀ (vendor : LogsBody → Except JsError α) filter ps,
      searchLogs vendor filter f t ps =
        (Outcome.errOf "Start time must be before end time", none)) ∧
    (∀ (vendor : LogsAggBody → Except JsError α) filter aggTy,
      aggregateLogs vendor filter f t aggTy =
        (Outcome.errOf "Start time must be before end time", none)) ∧
    (∀ (vendor : MetricsParams → Except JsError α) q, q ≠ "" →
      queryMetrics vendor q f t =
        (Outcome.errOf "Start time must be before end time", none)) ∧
    (∀ (vendor : EventsParams → Except JsError α) q ps,
      searchEvents vendor q f t ps =
        (Outcome.errOf "Start time must be before end time", none)) ∧
    (∀ (vendor : EventsParams → Except JsError α) mid,
      getMonitorEvents vendor (some mid) f t =
        (Outcome.errOf "Start time must be before end time", none)) ∧
    (∀ sv mv filter svc ps,
      queryTraces sv mv filter f t svc ps =
        (.ok (Outcome.errOf "Start time must be before end time"), none, none)) ∧
    (∀ sv svc env pl, svc ≠ "" →
      listServiceEndpoints sv (some svc) f t env pl =
        (Outcome.errOf "Service name and valid time range required", none)) ∧
    (∀ mv svc, svc ≠ "" →
      (apmGetServiceDependencies mv svc f t).2 =
        some ⟨Int.fdiv f 1000, Int.fdiv t 1000, "trace.*\x7bservice:" ++ svc ++ "\x7d"⟩) := by
  refine ⟨?_, ?_, ?_, ?_, ?_, ?_, ?_, ?_⟩
  · intro vendor filter ps
    unfold searchLogs
    simp [hge]
  · intro vendor filter aggTy
    unfold aggregateLogs
    simp [hge]
  · intro vendor q hq
    unfold queryMetrics
    simp [hq, hge]
  · intro vendor q ps
    unfold searchEvents
    simp [hge]
  · intro vendor mid
    unfold getMonitorEvents searchEvents
    simp [hge]
  · intro sv mv filter svc ps
    unfold queryTraces
    simp [hge]
  · intro sv svc env pl hsvc
    unfold listServiceEndpoints
    simp [hsvc, hge]
  · intro mv svc hsvc
    unfold apmGetServiceDependencies
    simp [hsvc]
    split <;> rfl

/-- C3 witness: the amended theorem applied at the concrete inverted
range `from = 5, to = 3`. -/
theorem C3_range_validation_witness :
    searchLogs (α := Unit) (fun _ => Except.ok ()) "f" 5 3 none =
      (Outcome.errOf "Start time must be before end time", none) ∧
    (apmGetServiceDependencies (fun _ => Except.ok ⟨none⟩) "svc" 5 3).2 =
      some ⟨0, 0, "trace.*\x7bservice:svc\x7d"⟩ :=
  ⟨(C3_range_validation 5 3 (by norm_num) Unit).1 _ "f" none,
   (C3_range_validation 5 3 (by norm_num) Unit).2.2.2.2.2.2.2
     (fun _ => Except.ok ⟨none⟩) "svc" (by decide)⟩

/-- C5: `handleQueryMetrics` returns an error reply and never invokes
the metrics client when the filter string contains `{` or `}`; on the
accepted path the query passed to the client is exactly
`metricName{filter}` for a non-empty filter and the bare trimmed
`metricName` otherwise (with `metricName` required non-empty after
trimming). -/
theorem C5_metric_filter_sanitization
    (serialize : QueryMetricsBody → String)
    (vendor : MetricsParams → Except JsError QMResp) (input : QMInput) (fv : String) :
    (input.filter = some fv → hasBrace fv = true →
      (handleQueryMetrics serialize vendor input).1.isError = true ∧
      (handleQueryMetrics serialize vendor input).2 = none) ∧
    (∀ f t name,
      parseTimestamp input.fromTime = .ok f →
      parseTimestamp input.toTime = .ok t →
      ¬ f ≥ t →
      input.metricName = some name → jsTrim name ≠ "" →
      input.filter = some fv → hasBrace fv = false →
      (handleQueryMetrics serialize vendor input).2 =
        some ((if fv ≠ "" then jsTrim name ++ "\x7b" ++ fv ++ "\x7d" else jsTrim name), f, t)) ∧
    (∀ f t name,
      parseTimestamp input.fromTime = .ok f →
      parseTimestamp input.toTime = .ok t →
      ¬ f ≥ t →
      input.metricName = some name → jsTrim name ≠ "" →
      input.filter = none →
      (handleQueryMetrics serialize vendor input).2 = some (jsTrim name, f, t)) := by
  refine ⟨?_, ?_, ?_⟩
  · intro hfv hbrace
    have hfvne : fv ≠ "" := by
      intro h
      rw [h] at hbrace
      revert hbrace
      decide
    unfold handleQueryMetrics
    rw [hfv]
    simp only [Option.getD_some]
    repeat' first
      | split
      | dsimp only
    all_goals try exact ⟨rfl, rfl⟩
    all_goals
      exact absurd (⟨hfvne, hbrace⟩ : fv ≠ "" ∧ hasBrace fv = true) (by assumption)
  · intro f t name hf ht hlt hname hnametrim hfv hbrace
    unfold handleQueryMetrics
    rw [hf, ht]
    try dsimp only
    rw [if_neg hlt]
    simp only [hname, hfv, Option.map_some', Option.getD_some]
    rw [if_neg hnametrim, if_neg (by simp [hbrace])]
    try dsimp only
    split <;> rfl
  · intro f t name hf ht hlt hname hnametrim hfv
    unfold handleQueryMetrics
    rw [hf, ht]
    try dsimp only
    rw [if_neg hlt]
    simp only [hname, hfv, Option.map_some', Option.getD_some, Option.getD_none]
    rw [if_neg hnametrim]
    rw [if_neg (by simp : ¬ ((("" : String) ≠ "") ∧ hasBrace "" = true))]
    try dsimp only
    rw [if_neg (by simp : ¬ (("" : String) ≠ ""))]
    split <;> rfl

/-- C5 witness: the theorem applied at concrete inputs (a braced filter
is rejected without a client call; a clean filter produces
`system.cpu{host:a}`). -/
theorem C5_metric_filter_sanitization_witness :
    ((handleQueryMetrics (fun _ => "") (fun _ => Except.ok ⟨some []⟩)
        ⟨some "system.cpu", .num 1, .num 2, some "ho\x7bst"⟩).1.isError = true ∧
      (handleQueryMetrics (fun _ => "") (fun _ => Except.ok ⟨some []⟩)
        ⟨some "system.cpu", .num 1, .num 2, some "ho\x7bst"⟩).2 = none) ∧
    (handleQueryMetrics (fun _ => "") (fun _ => Except.ok ⟨some []⟩)
        ⟨some "system.cpu", .num 1, .num 2, some "host:a"⟩).2 =
      some ("system.cpu\x7bhost:a\x7d", 1, 2) := by
  constructor
  · exact (C5_metric_filter_sanitization (fun _ => "") (fun _ => Except.ok ⟨some []⟩)
      ⟨some "system.cpu", .num 1, .num 2, some "ho\x7bst"⟩ "ho\x7bst").1 rfl (by decide)
  · have h := (C5_metric_filter_sanitization (fun _ => "") (fun _ => Except.ok ⟨some []⟩)
      ⟨some "system.cpu", .num 1, .num 2, some "host:a"⟩ "host:a").2.1
      1 2 "system.cpu" rfl rfl (by norm_num) rfl (by decide) rfl (by decide)
    rw [h]
    decide

/-- C7 counterexample: `LogsClient.searchLogs` with `pageSize = 1000`
and a valid range returns the error outcome "Page size must be between
1 and 100" with no vendor call — it is not clamped to 100. -/
theorem C7_counterexample :
    searchLogs (α := Unit) (fun _ => Except.ok ()) "service:api" 1 2 (some 1000) =
      (Outcome.errOf "Page size must be between 1 and 100", none) := by
  rfl

/-- C7 (amended): page-size handling differs per client.
`LogsClient.searchLogs` defaults to 10 and rejects sizes outside
`[1, 100]` with an error (no clamping, no vendor call);
`EventsClient.searchEvents` computes `min(pageSize || 10, 100)` but its
vendor call carries no page size at all (the call is identical for
every requested size); `ApmClient.queryTraces` clamps
`min(pageSize || 100, 100)` (default 100) into the span-list page
limit. -/
theorem C7_page_size (α : Type) :
    (∀ (vendor : LogsBody → Except JsError α) filter (f t : Int) (ps : Option Int),
      ¬ f ≥ t →
      (1 ≤ ps.getD 10 → ps.getD 10 ≤ 100 →
        (searchLogs vendor filter f t ps).2 = some ⟨f, t, filter, ps.getD 10⟩) ∧
      (ps.getD 10 < 1 ∨ ps.getD 10 > 100 →
        searchLogs vendor filter f t ps =
          (Outcome.errOf "Page size must be between 1 and 100", none))) ∧
    (∀ (vendor : EventsParams → Except JsError α) q f t (ps : Option Int),
      searchEvents vendor q f t ps = searchEvents vendor q f t none) ∧
    (eventsPageSize (some 1000) = 100) ∧
    (∀ sv mv filter (f t : Int) svc (ps : Option Int) q,
      ¬ f ≥ t →
      apmSpanQuery svc filter = some q →
      (queryTraces sv mv filter f t svc ps).2.1 = some ⟨q, f, t, apmLimit ps⟩) ∧
    (apmLimit (some 1000) = 100) := by
  refine ⟨?_, ?_, by decide, ?_, by decide⟩
  · intro vendor filter f t ps hlt
    constructor
    · intro h1 h100
      unfold searchLogs
      rw [if_neg hlt, if_neg (by omega)]
      dsimp only
      split <;> rfl
    · intro hbad
      unfold searchLogs
      rw [if_neg hlt, if_pos (by omega)]
  · intro vendor q f t ps
    unfold searchEvents
    rfl
  · intro sv mv filter f t svc ps q hlt hq
    unfold queryTraces
    rw [if_neg hlt]
    try dsimp only
    rw [hq]
    try dsimp only
    split
    · rfl
    · unfold tracesFallbackMetrics
      try dsimp only
      split <;> rfl

/-- C7 witness: the amended theorem applied at concrete inputs. -/
theorem C7_page_size_witness :
    (searchLogs (α := Unit) (fun _ => Except.ok ()) "q" 1 2 (some 7)).2 =
      some ⟨1, 2, "q", 7⟩ ∧
    searchLogs (α := Unit) (fun _ => Except.ok ()) "q" 1 2 (some 1000) =
      (Outcome.errOf "Page size must be between 1 and 100", none) ∧
    (queryTraces (fun _ => Except.ok ⟨some []⟩) (fun _ => Except.ok ⟨some []⟩)
        "" 1 2 (some "api") (some 1000)).2.1 = some ⟨"service:api", 1, 2, 100⟩ := by
  refine ⟨((C7_page_size Unit).1 (fun _ => Except.ok ()) "q" 1 2 (some 7)
      (by norm_num)).1 (by norm_num) (by norm_num),
    ((C7_page_size Unit).1 (fun _ => Except.ok ()) "q" 1 2 (some 1000)
      (by norm_num)).2 (by norm_num),
    ?_⟩
  have h := (C7_page_size Unit).2.2.2.1 (fun _ => Except.ok ⟨some []⟩)
    (fun _ => Except.ok ⟨some []⟩) "" 1 2 (some "api") (some 1000) "service:api"
    (by norm_num) (by decide)
  rw [h]
  decide

/-- C6 counterexample: with tags `["a", "b"]` the query delegated to
the generic search is `"tags:a AND tags:b"` — each tag is prefixed with
`tags:` — and not the plain join `"a AND b"` the claim states. -/
theorem C6_counterexample :
    (searchEventsByTags (fun p => Except.ok p) ["a", "b"] 1 2).2 =
      some ⟨1, 2, "tags:a AND tags:b"⟩ ∧
    "tags:a AND tags:b" ≠ "a AND b" := by
  constructor
  · rfl
  · decide

/-- If every tag passes validation, the collected safe tags are the
trimmed tags in order. -/
lemma validateTags_ok_eq_trim :
    ∀ (tags safe : List String), validateTags tags = .ok safe →
      safe = tags.map jsTrim := by
  intro tags
  induction tags with
  | nil =>
    intro safe h
    unfold validateTags at h
    injection h with h
    subst h
    rfl
  | cons tag rest ih =>
    intro safe h
    unfold validateTags at h
    dsimp only at h
    by_cases h1 : jsTrim tag = "" ∨ (jsTrim tag).length > 256
    · rw [if_pos h1] at h
      cases h
    · rw [if_neg h1] at h
      by_cases h2 : hasReservedKeyword (jsTrim tag) = true
      · rw [if_pos h2] at h
        cases h
      · rw [if_neg h2] at h
        cases hrest : validateTags rest with
        | error e =>
          rw [hrest] at h
          cases h
        | ok s =>
          rw [hrest] at h
          injection h with h
          subst h
          simp [List.map, ih s hrest]

/-- A bad tag anywhere in the list makes validation fail. -/
lemma validateTags_error_of_bad :
    ∀ (tags : List String), (∃ g ∈ tags, jsTrim g = "" ∨ (jsTrim g).length > 256 ∨
      hasReservedKeyword (jsTrim g) = true) →
      ∃ e, validateTags tags = .error e := by
  intro tags
  induction tags with
  | nil =>
    rintro ⟨g, hg, _⟩
    cases hg
  | cons tag rest ih =>
    rintro ⟨g, hg, hbad⟩
    unfold validateTags
    rcases List.mem_cons.mp hg with hgtag | hgrest
    · subst hgtag
      rcases hbad with h | h | h
      · exact ⟨_, by rw [if_pos (Or.inl h)]⟩
      · exact ⟨_, by rw [if_pos (Or.inr h)]⟩
      · by_cases hfirst : jsTrim g = "" ∨ (jsTrim g).length > 256
        · exact ⟨_, by rw [if_pos hfirst]⟩
        · exact ⟨_, by rw [if_neg hfirst, if_pos h]⟩
    · by_cases hfirst : jsTrim tag = "" ∨ (jsTrim tag).length > 256
      · exact ⟨_, by rw [if_pos hfirst]⟩
      · by_cases hres : hasReservedKeyword (jsTrim tag) = true
        · exact ⟨_, by rw [if_neg hfirst, if_pos hres]⟩
        · obtain ⟨e, he⟩ := ih ⟨g, hgrest, hbad⟩
          exact ⟨e, by rw [if_neg hfirst, if_neg hres, he]⟩

/-- C6 (amended): `searchEventsByTags` returns an error outcome with no
vendor call when any tag trims to empty, exceeds 256 characters, or
contains `" AND "`/`" OR "` case-insensitively; otherwise it delegates
to `searchEvents` with the trimmed tags each prefixed by `tags:` and
joined with `" AND "`. -/
theorem C6_event_tags (α : Type) :
    (∀ (vendor : EventsParams → Except JsError α) tags (f t : Int),
      (∃ g ∈ tags, jsTrim g = "" ∨ (jsTrim g).length > 256 ∨
        hasReservedKeyword (jsTrim g) = true) →
      (searchEventsByTags vendor tags f t).1.error.isSome = true ∧
      (searchEventsByTags vendor tags f t).2 = none) ∧
    (∀ (vendor : EventsParams → Except JsError α) tags (f t : Int) safe,
      validateTags tags = .ok safe → tags ≠ [] →
      searchEventsByTags vendor tags f t =
        searchEvents vendor
          (String.intercalate " AND " ((tags.map jsTrim).map (fun g => "tags:" ++ g)))
          f t none) := by
  constructor
  · intro vendor tags f t hbad
    obtain ⟨e, he⟩ := validateTags_error_of_bad tags hbad
    unfold searchEventsByTags
    split
    · exact ⟨rfl, rfl⟩
    · rw [he]
      exact ⟨rfl, rfl⟩
  · intro vendor tags f t safe hok hne
    unfold searchEventsByTags
    rw [if_neg hne, hok]
    try dsimp only
    rw [validateTags_ok_eq_trim tags safe hok]

/-- C6 witness: the amended theorem applied at concrete inputs. -/
theorem C6_event_tags_witness :
    ((searchEventsByTags (α := EventsParams) (fun p => Except.ok p)
        ["x AND y"] 1 2).1.error.isSome = true ∧
      (searchEventsByTags (α := EventsParams) (fun p => Except.ok p)
        ["x AND y"] 1 2).2 = none) ∧
    searchEventsByTags (α := EventsParams) (fun p => Except.ok p) ["a", "b"] 1 2 =
      searchEvents (fun p => Except.ok p) "tags:a AND tags:b" 1 2 none := by
  constructor
  · exact (C6_event_tags EventsParams).1 (fun p => Except.ok p) ["x AND y"] 1 2
      ⟨"x AND y", by decide, by decide⟩
  · have h := (C6_event_tags EventsParams).2 (fun p => Except.ok p) ["a", "b"] 1 2
      ["a", "b"] (by rfl) (by decide)
    rw [h]
    rfl

/-- C10 counterexample: a successful vendor response with 101 monitors
yields a reply body containing all 101 monitors (and `monitorsCount =
101`) — not the claimed truncation to exactly 100. -/
theorem C10_counterexample :
    (handleListMonitors (fun _ => "") (fun _ => Except.ok (List.replicate 101 ()))
        ⟨none, none⟩).2 =
      some ⟨"any", [], 101, List.replicate 101 ()⟩ ∧
    (101 : Nat) ≠ 100 := by
  constructor
  · rfl
  · decide

/-- C10 (amended): for every successful `list_monitors` vendor response
with `N` monitors (and a valid status filter), the reply body reports
`monitorsCount = N` and includes all `N` monitors, for every `N` — no
truncation at 100 and no more-available indicator exist. -/
theorem C10_list_monitors_roundtrip {μ : Type}
    (serialize : ListMonitorsBody μ → String)
    (vendor : MonitorsParams → Except JsError (List μ))
    (input : LMInput) (data : List μ) :
    (input.status.getD "" = "" ∨
      ["triggered", "OK", "degraded"].contains (input.status.getD "") = true) →
    vendor (mkMonitorsParams none (lmTagsFilter input.tags) none) = .ok data →
    (handleListMonitors serialize vendor input).2 =
      some ⟨if input.status.getD "" = "" then "any" else input.status.getD "",
            input.tags.getD [], data.length, data⟩ := by
  intro hstatus hv
  have hguard : ¬ (input.status.getD "" ≠ "" ∧
      ¬ (["triggered", "OK", "degraded"].contains (input.status.getD "") = true)) := by
    rcases hstatus with h | h
    · simp [h]
    · simp only [h]
      simp
  unfold handleListMonitors
  rw [if_neg hguard]
  unfold listMonitors
  try dsimp only
  rw [hv]
  simp [Outcome.okOf]

/-- C10 witness: the amended theorem applied at a concrete
two-monitor response. -/
theorem C10_list_monitors_roundtrip_witness :
    (handleListMonitors (fun _ => "") (fun _ => Except.ok ([0, 1] : List Int))
        ⟨none, none⟩).2 = some ⟨"any", [], 2, [0, 1]⟩ := by
  have h := C10_list_monitors_roundtrip (fun _ => "")
    (fun _ => Except.ok ([0, 1] : List Int)) ⟨none, none⟩ [0, 1]
    (Or.inl rfl) rfl
  exact h

/-- Whether a span carries the given trace id. -/
def matchesTid (tid : String) (s : Span) : Bool :=
  s.traceId == some tid

/-- The duration recorded for a trace id in a summary list (`none` when
the id is absent or its duration is null). -/
def durAt (tid : String) (l : List TraceSummary) : Option Int :=
  match l.find? (fun ts => ts.trace_id == tid) with
  | some ts => ts.duration
  | none => none

/-- The span count recorded for a trace id in a summary list. -/
def cntAt (tid : String) (l : List TraceSummary) : Nat :=
  match l.find? (fun ts => ts.trace_id == tid) with
  | some ts => ts.span_count
  | none => 0

lemma mergeDur_none_left (x : Option Int) : mergeDur none x = x := by
  cases x <;> simp [mergeDur]

lemma mergeDur_self (x : Option Int) : mergeDur x x = x := by
  cases x <;> simp [mergeDur]

/-- Inserting a span updates the duration of its own trace id by the
max-merge. -/
lemma durAt_insertSpan_self (acc : List TraceSummary) (tid : String) (s : Span) :
    durAt tid (insertSpan acc tid s) = mergeDur (durAt tid acc) s.duration := by
  induction acc with
  | nil =>
    unfold insertSpan durAt
    rw [List.find?_cons_of_pos _ (by simp [bumpTrace, newTrace])]
    simp [bumpTrace, newTrace, mergeDur_none_left, mergeDur_self, List.find?]
  | cons head rest ih =>
    unfold insertSpan
    by_cases h : head.trace_id = tid
    · rw [if_pos h]
      unfold durAt
      rw [List.find?_cons_of_pos _ (by simp [bumpTrace, h]),
        List.find?_cons_of_pos _ (by simp [h])]
      simp [bumpTrace]
    · rw [if_neg h]
      unfold durAt
      rw [List.find?_cons_of_neg _ (by simp [h]),
        List.find?_cons_of_neg _ (by simp [h])]
      exact ih

/-- Inserting a span leaves every other trace id's duration
unchanged. -/
lemma durAt_insertSpan_ne (acc : List TraceSummary) (tid tid' : String) (s : Span)
    (h : tid' ≠ tid) :
    durAt tid' (insertSpan acc tid s) = durAt tid' acc := by
  induction acc with
  | nil =>
    unfold insertSpan durAt
    rw [List.find?_cons_of_neg _ (by simp [bumpTrace, newTrace]; exact fun hc => absurd hc.symm h)]
  | cons head rest ih =>
    unfold insertSpan
    by_cases hh : head.trace_id = tid
    · rw [if_pos hh]
      unfold durAt
      rw [List.find?_cons_of_neg _ (by simp [bumpTrace, hh]; exact fun hc => absurd hc.symm h),
        List.find?_cons_of_neg _ (by simp [hh]; exact fun hc => absurd hc.symm h)]
    · rw [if_neg hh]
      unfold durAt
      by_cases hh' : head.trace_id = tid'
      · rw [List.find?_cons_of_pos _ (by simp [hh']),
          List.find?_cons_of_pos _ (by simp [hh'])]
      · rw [List.find?_cons_of_neg _ (by simp [hh']),
          List.find?_cons_of_neg _ (by simp [hh'])]
        exact ih

/-- Inserting a span bumps the span count of its own trace id. -/
lemma cntAt_insertSpan_self (acc : List TraceSummary) (tid : String) (s : Span) :
    cntAt tid (insertSpan acc tid s) = cntAt tid acc + 1 := by
  induction acc with
  | nil =>
    unfold insertSpan cntAt
    rw [List.find?_cons_of_pos _ (by simp [bumpTrace, newTrace])]
    simp [bumpTrace, newTrace, List.find?]
  | cons head rest ih =>
    unfold insertSpan
    by_cases h : head.trace_id = tid
    · rw [if_pos h]
      unfold cntAt
      rw [List.find?_cons_of_pos _ (by simp [bumpTrace, h]),
        List.find?_cons_of_pos _ (by simp [h])]
      simp [bumpTrace]
    · rw [if_neg h]
      unfold cntAt
      rw [List.find?_cons_of_neg _ (by simp [h]),
        List.find?_cons_of_neg _ (by simp [h])]
      exact ih

/-- Inserting a span leaves every other trace id's span count
unchanged. -/
lemma cntAt_insertSpan_ne (acc : List TraceSummary) (tid tid' : String) (s : Span)
    (h : tid' ≠ tid) :
    cntAt tid' (insertSpan acc tid s) = cntAt tid' acc := by
  induction acc with
  | nil =>
    unfold insertSpan cntAt
    rw [List.find?_cons_of_neg _ (by simp [bumpTrace, newTrace]; exact fun hc => absurd hc.symm h)]
  | cons head rest ih =>
    unfold insertSpan
    by_cases hh : head.trace_id = tid
    · rw [if_pos hh]
      unfold cntAt
      rw [List.find?_cons_of_neg _ (by simp [bumpTrace, hh]; exact fun hc => absurd hc.symm h),
        List.find?_cons_of_neg _ (by simp [hh]; exact fun hc => absurd hc.symm h)]
    · rw [if_neg hh]
      unfold cntAt
      by_cases hh' : head.trace_id = tid'
      · rw [List.find?_cons_of_pos _ (by simp [hh']),
          List.find?_cons_of_pos _ (by simp [hh'])]
      · rw [List.find?_cons_of_neg _ (by simp [hh']),
          List.find?_cons_of_neg _ (by simp [hh'])]
        exact ih

/-- Grouping folds the max-merge of the matching spans' durations onto
whatever duration the accumulator already records for the id. -/
lemma durAt_groupSpansAux (spans : List Span) :
    ∀ (acc : List TraceSummary) (tid : String),
      durAt tid (groupSpansAux acc spans) =
        (spans.filter (matchesTid tid)).foldl (fun c sp => mergeDur c sp.duration)
          (durAt tid acc) := by
  induction spans with
  | nil =>
    intro acc tid
    simp [groupSpansAux]
  | cons s rest ih =>
    intro acc tid
    unfold groupSpansAux
    cases hs : s.traceId with
    | none =>
      have hm : matchesTid tid s = false := by simp [matchesTid, hs]
      rw [List.filter_cons_of_neg (by simp [hm])]
      exact ih acc tid
    | some t0 =>
      by_cases ht : t0 = tid
      · subst ht
        have hm : matchesTid t0 s = true := by simp [matchesTid, hs]
        rw [List.filter_cons_of_pos (by simp [hm])]
        rw [ih (insertSpan acc t0 s) t0]
        rw [durAt_insertSpan_self]
        rfl
      · have ht' : tid ≠ t0 := fun hc => ht hc.symm
        have hm : matchesTid tid s = false := by simp [matchesTid, hs, ht', ht]
        rw [List.filter_cons_of_neg (by simp [hm])]
        rw [ih (insertSpan acc t0 s) tid]
        rw [durAt_insertSpan_ne acc t0 tid s ht']

/-- Grouping adds the number of matching spans to whatever count the
accumulator already records for the id. -/
lemma cntAt_groupSpansAux (spans : List Span) :
    ∀ (acc : List TraceSummary) (tid : String),
      cntAt tid (groupSpansAux acc spans) =
        cntAt tid acc + (spans.filter (matchesTid tid)).length := by
  induction spans with
  | nil =>
    intro acc tid
    simp [groupSpansAux]
  | cons s rest ih =>
    intro acc tid
    unfold groupSpansAux
    cases hs : s.traceId with
    | none =>
      have hm : matchesTid tid s = false := by simp [matchesTid, hs]
      rw [List.filter_cons_of_neg (by simp [hm])]
      exact ih acc tid
    | some t0 =>
      by_cases ht : t0 = tid
      · subst ht
        have hm : matchesTid t0 s = true := by simp [matchesTid, hs]
        rw [List.filter_cons_of_pos (by simp [hm])]
        rw [ih (insertSpan acc t0 s) t0]
        rw [cntAt_insertSpan_self]
        simp [List.length_cons]
        omega
      · have ht' : tid ≠ t0 := fun hc => ht hc.symm
        have hm : matchesTid tid s = false := by simp [matchesTid, hs, ht', ht]
        rw [List.filter_cons_of_neg (by simp [hm])]
        rw [ih (insertSpan acc t0 s) tid]
        rw [cntAt_insertSpan_ne acc t0 tid s ht']

/-- The trace ids of an insertion: the existing ids, plus the inserted
id appended when it was absent. -/
lemma idsOf_insertSpan (acc : List TraceSummary) (tid : String) (s : Span) :
    (insertSpan acc tid s).map TraceSummary.trace_id =
      if tid ∈ acc.map TraceSummary.trace_id then acc.map TraceSummary.trace_id
      else acc.map TraceSummary.trace_id ++ [tid] := by
  induction acc with
  | nil =>
    simp [insertSpan, bumpTrace, newTrace]
  | cons head rest ih =>
    unfold insertSpan
    by_cases h : head.trace_id = tid
    · rw [if_pos h]
      simp [bumpTrace, h]
    · rw [if_neg h]
      have hne : ¬ tid = head.trace_id := fun hc => h hc.symm
      simp only [List.map_cons, List.mem_cons, hne, false_or]
      rw [ih]
      by_cases hmem : tid ∈ rest.map TraceSummary.trace_id
      · rw [if_pos hmem, if_pos hmem]
      · rw [if_neg hmem, if_neg hmem]
        simp

/-- Insertion keeps the trace ids pairwise distinct. -/
lemma insertSpan_nodup (acc : List TraceSummary) (tid : String) (s : Span)
    (h : (acc.map TraceSummary.trace_id).Nodup) :
    ((insertSpan acc tid s).map TraceSummary.trace_id).Nodup := by
  rw [idsOf_insertSpan]
  by_cases hmem : tid ∈ acc.map TraceSummary.trace_id
  · rw [if_pos hmem]
    exact h
  · rw [if_neg hmem]
    simp [List.nodup_append, h, hmem]

/-- The grouping loop keeps trace ids pairwise distinct. -/
lemma groupSpansAux_nodup (spans : List Span) :
    ∀ (acc : List TraceSummary), (acc.map TraceSummary.trace_id).Nodup →
      ((groupSpansAux acc spans).map TraceSummary.trace_id).Nodup := by
  induction spans with
  | nil =>
    intro acc h
    exact h
  | cons s rest ih =>
    intro acc h
    unfold groupSpansAux
    cases s.traceId with
    | none => exact ih acc h
    | some t0 => exact ih _ (insertSpan_nodup acc t0 s h)

/-- In a list with distinct trace ids, `find?` at a member's id returns
that member. -/
lemma find?_of_mem_nodup :
    ∀ (l : List TraceSummary), (l.map TraceSummary.trace_id).Nodup →
      ∀ ts ∈ l, l.find? (fun x => x.trace_id == ts.trace_id) = some ts := by
  intro l
  induction l with
  | nil =>
    intro _ ts hts
    cases hts
  | cons head rest ih =>
    intro hnodup ts hts
    rcases List.mem_cons.mp hts with hhead | hrest
    · subst hhead
      rw [List.find?_cons_of_pos _ (by simp)]
    · have hne : head.trace_id ≠ ts.trace_id := by
        intro hc
        have : head.trace_id ∈ rest.map TraceSummary.trace_id := by
          rw [hc]
          exact List.mem_map_of_mem _ hrest
        simp [List.nodup_cons] at hnodup
        exact hnodup.1 _ hrest hc.symm
      rw [List.find?_cons_of_neg _ (by simp [hne])]
      exact ih (by simp [List.nodup_cons] at hnodup; exact hnodup.2) ts hrest

/-- Every summary produced by `groupSpans` records exactly the
max-merge of its group's durations and the size of its group. -/
lemma groupSpans_summary (spans : List Span) :
    ∀ ts ∈ groupSpans spans,
      ts.duration =
        (spans.filter (matchesTid ts.trace_id)).foldl
          (fun c sp => mergeDur c sp.duration) none ∧
      ts.span_count = (spans.filter (matchesTid ts.trace_id)).length := by
  intro ts hts
  have hnodup : ((groupSpans spans).map TraceSummary.trace_id).Nodup :=
    groupSpansAux_nodup spans [] (by simp)
  have hfind : (groupSpans spans).find? (fun x => x.trace_id == ts.trace_id) = some ts :=
    find?_of_mem_nodup (groupSpans spans) hnodup ts hts
  constructor
  · have h := durAt_groupSpansAux spans [] ts.trace_id
    unfold groupSpans at hfind
    rw [durAt, hfind] at h
    simpa [durAt] using h
  · have h := cntAt_groupSpansAux spans [] ts.trace_id
    unfold groupSpans at hfind
    rw [cntAt, hfind] at h
    simpa [cntAt] using h

/-- C9 counterexample: with NO service name but a non-empty filter,
`queryTraces` still attempts the span-listing call and, when that call
succeeds, returns the span-path result with zero metrics calls —
contradicting the claim that it falls back to trace-derived metrics
whenever no service name was supplied. -/
theorem C9_counterexample :
    queryTraces (fun _ => Except.ok ⟨some []⟩) (fun _ => Except.ok ⟨some []⟩)
        "env:prod" 1 2 none none =
      (.ok (Outcome.okOf ⟨[], 0, "No traces in range"⟩),
       some ⟨"env:prod", 1, 2, 100⟩, none) ∧
    "No traces in range" ≠ "Trace metrics available" := by
  constructor
  · rfl
  · decide

/-- C9 (amended): `queryTraces` attempts the span-listing call whenever
a service name is supplied OR the trimmed filter is non-empty (a
supplied service name always forces it); on span success it groups the
returned spans into traces by trace id — per-trace `span_count` is the
group size and `duration` is the max-merge of the group's durations —
and reports "Trace list from Spans API" / "No traces in range"; when
the span call fails, or when neither a service name nor a non-empty
filter was given, it queries trace-derived metrics and reports
"Trace metrics available". -/
theorem C9_query_traces_paths :
    (∀ (sv : SpanParams → Except JsError SpansResponse) mv filter (f t : Int) svc ps q resp,
      ¬ f ≥ t →
      apmSpanQuery svc filter = some q →
      sv ⟨q, f, t, apmLimit ps⟩ = .ok resp →
      queryTraces sv mv filter f t svc ps =
        (.ok (Outcome.okOf ⟨groupSpans (resp.data.getD []),
            (groupSpans (resp.data.getD [])).length,
            if (groupSpans (resp.data.getD [])).length > 0 then "Trace list from Spans API"
            else "No traces in range"⟩),
         some ⟨q, f, t, apmLimit ps⟩, none)) ∧
    (∀ (sv : SpanParams → Except JsError SpansResponse) mv filter (f t : Int) svc ps q e r,
      ¬ f ≥ t →
      apmSpanQuery svc filter = some q →
      sv ⟨q, f, t, apmLimit ps⟩ = .error e →
      mv ⟨Int.fdiv f 1000, Int.fdiv t 1000, fallbackQuery filter⟩ = .ok r →
      queryTraces sv mv filter f t svc ps =
        (.ok (Outcome.okOf ⟨(jsSlice (r.series.getD []) (apmLimit ps)).map fallbackTrace,
            ((jsSlice (r.series.getD []) (apmLimit ps)).map fallbackTrace).length,
            "Trace metrics available"⟩),
         some ⟨q, f, t, apmLimit ps⟩,
         some ⟨Int.fdiv f 1000, Int.fdiv t 1000, fallbackQuery filter⟩)) ∧
    (∀ (sv : SpanParams → Except JsError SpansResponse) mv filter (f t : Int) svc ps r,
      ¬ f ≥ t →
      apmSpanQuery svc filter = none →
      mv ⟨Int.fdiv f 1000, Int.fdiv t 1000, fallbackQuery filter⟩ = .ok r →
      queryTraces sv mv filter f t svc ps =
        (.ok (Outcome.okOf ⟨(jsSlice (r.series.getD []) (apmLimit ps)).map fallbackTrace,
            ((jsSlice (r.series.getD []) (apmLimit ps)).map fallbackTrace).length,
            "Trace metrics available"⟩),
         none,
         some ⟨Int.fdiv f 1000, Int.fdiv t 1000, fallbackQuery filter⟩)) ∧
    (∀ svc filter, svc ≠ "" → ∃ q, apmSpanQuery (some svc) filter = some q) ∧
    (∀ spans, ∀ ts ∈ groupSpans spans,
      ts.duration =
        (spans.filter (matchesTid ts.trace_id)).foldl
          (fun c sp => mergeDur c sp.duration) none ∧
      ts.span_count = (spans.filter (matchesTid ts.trace_id)).length) := by
  refine ⟨?_, ?_, ?_, ?_, groupSpans_summary⟩
  · intro sv mv filter f t svc ps q resp hlt hq hv
    unfold queryTraces
    rw [if_neg hlt]
    try dsimp only
    rw [hq]
    try dsimp only
    rw [hv]
  · intro sv mv filter f t svc ps q e r hlt hq hv hm
    unfold queryTraces
    rw [if_neg hlt]
    try dsimp only
    rw [hq]
    try dsimp only
    rw [hv]
    unfold tracesFallbackMetrics
    try dsimp only
    rw [hm]
  · intro sv mv filter f t svc ps r hlt hq hm
    unfold queryTraces
    rw [if_neg hlt]
    try dsimp only
    rw [hq]
    unfold tracesFallbackMetrics
    try dsimp only
    rw [hm]
  · intro svc filter hsvc
    unfold apmSpanQuery
    simp [hsvc]

/-- C9 witness: the amended theorem applied at concrete inputs — two
spans of one trace are grouped into a single trace with `span_count =
2` and the maximum duration 9, and the span-path message is
reported. -/
theorem C9_query_traces_paths_witness :
    queryTraces
        (fun _ => Except.ok ⟨some [⟨some "t1", some 5, none, none, none⟩,
          ⟨some "t1", some 9, none, none, none⟩]⟩)
        (fun _ => Except.ok ⟨some []⟩) "" 1 2 (some "api") none =
      (.ok (Outcome.okOf ⟨[⟨"t1", 2, some 9, none, none, none, none⟩], 1,
        "Trace list from Spans API"⟩),
       some ⟨"service:api", 1, 2, 100⟩, none) := by
  have h := C9_query_traces_paths.1
    (fun _ => Except.ok ⟨some [⟨some "t1", some 5, none, none, none⟩,
      ⟨some "t1", some 9, none, none, none⟩]⟩)
    (fun _ => Except.ok ⟨some []⟩) "" 1 2 (some "api") none "service:api"
    ⟨some [⟨some "t1", some 5, none, none, none⟩, ⟨some "t1", some 9, none, none, none⟩]⟩
    (by norm_num) (by rfl) (by rfl)
  rw [h]
  rfl
